import Mathlib

/-!
Shallow embedding of the frame-supply state machine of
`src/rtsp_to_webrtc_server.py` (class `RTSPVideoTrack`).

Modelling conventions:
* Wall-clock readings (`time.time()`) are rationals; each call to `recv`
  observes one reading `Env.now`, used for every `time.time()` inside that
  call.
* The outcomes of the external capture device are inputs per call:
  `Env.openOk` is whether `cv2.VideoCapture(url).isOpened()` succeeds,
  `Env.readFrame` is `some img` when `cap.read()` returns a valid non-empty
  frame (it folds `ret == False`, `frame is None` and `frame.size == 0` into
  `none`), and `Env.convertOk` is whether the `cvtColor` and `from_ndarray`
  conversion in the `try` block succeeds.
* Python `int()` on a nonnegative value is the floor and on a negative value
  truncates toward zero, i.e. the ceiling; `pyInt` models it.
* Capture objects receive ghost identifiers (`nextSessionId`) so that
  release-exactly-once properties can be traced; `Ev` records the calls made
  on the capture device. Logging calls (including the
  `_max_consecutive_read_failures` threshold branch at lines 112-116, whose
  body is a single `logging.error` call) and `asyncio.sleep` pacing are not
  state; the sleeps are recorded in `RecvResult.sleeps` so that claims about
  retry cadence can be stated.
-/

namespace LuminaEyes

/-- A decoded image delivered by `cap.read()`: `frame.shape[1]` is the width,
`frame.shape[0]` the height. -/
structure Img where
  width : Nat
  height : Nat
deriving DecidableEq, Repr

/-- The wire shape of an `av.VideoFrame` as configured by the track:
pixel dimensions, `pts` in 90 kHz ticks, `time_base` as a fraction, and a
ghost flag telling whether it is the black placeholder. -/
structure Frame where
  width : Nat
  height : Nat
  pts : Int
  timeBaseNum : Nat
  timeBaseDen : Nat
  isPlaceholder : Bool
deriving DecidableEq, Repr

/-- Calls made on the external capture device, with the ghost session id of
the `cv2.VideoCapture` object involved. -/
inductive Ev where
  | openAttempt (sid : Nat) (ok : Bool)
  | readCall (sid : Nat) (ok : Bool)
  | release (sid : Nat)
deriving DecidableEq, Repr

/-- The mutable fields of `RTSPVideoTrack` set in `__init__` (lines 30-42).
`cap = some sid` models `self.cap` being a `VideoCapture` that `isOpened()`;
`placeholderFrame` caches the dimensions the black frame was built with;
`nextSessionId` is a ghost counter handing out fresh session ids. -/
structure TrackState where
  cap : Option Nat
  frameCounter : Nat
  startTime : Option ℚ
  targetFps : Nat
  placeholderFrame : Option (Nat × Nat)
  frameWidth : Nat
  frameHeight : Nat
  consecutiveReadFailures : Nat
  maxConsecutiveReadFailures : Nat
  nextSessionId : Nat
deriving DecidableEq, Repr

/-- The state right after `__init__` (lines 30-42). -/
def initState : TrackState :=
  { cap := none, frameCounter := 0, startTime := none, targetFps := 15,
    placeholderFrame := none, frameWidth := 640, frameHeight := 480,
    consecutiveReadFailures := 0, maxConsecutiveReadFailures := 10,
    nextSessionId := 0 }

/-- The environment one `recv` call observes: outcome of an open attempt,
outcome of `cap.read()`, outcome of the frame conversion, and the wall
clock reading. -/
structure Env where
  openOk : Bool
  readFrame : Option Img
  convertOk : Bool
  now : ℚ
deriving DecidableEq, Repr

/-- Python `int()` applied to a real number: truncation toward zero. -/
def pyInt (q : ℚ) : Int := if q < 0 then ⌈q⌉ else ⌊q⌋

/-- The track state right after the success branch of
`_ensure_capture_started` (lines 52-68) ran from a state with no open
capture: the fresh session is open, the failure counter is reset, and
`_start_time` is set if it was previously `None` (lines 65-67). -/
def openedState (s : TrackState) (now : ℚ) : TrackState :=
  { s with cap := some s.nextSessionId, nextSessionId := s.nextSessionId + 1,
           consecutiveReadFailures := 0,
           startTime := some (s.startTime.getD now) }

/-- Lines 44-74, `_ensure_capture_started`: if `self.cap` is open, return
True; otherwise build a fresh `VideoCapture`. On success reset the failure
counter, set `_start_time` if it is still `None`, and return True; on
failure release the fresh capture object, set `self.cap = None`, and return
False. The returned `Option Nat` is the boolean result together with the id
of the open session. -/
def ensureCaptureStarted (s : TrackState) (e : Env) :
    Option Nat × TrackState × List Ev :=
  match s.cap with
  | some sid => (some sid, s, [])
  | none =>
    let sid := s.nextSessionId
    if e.openOk then
      (some sid, openedState s e.now, [Ev.openAttempt sid true])
    else
      (none,
        { s with cap := none, nextSessionId := sid + 1 },
        [Ev.openAttempt sid false, Ev.release sid])

/-- Lines 76-91, `_create_black_frame`: build the black placeholder at
`(frame_width, frame_height)` only if no cached one exists, set
`_start_time` if it is still `None`, and stamp the placeholder with
`pts = int((now - _start_time) * 90000)` and `time_base = 1/90000`. -/
def createBlackFrame (s : TrackState) (now : ℚ) : Frame × TrackState :=
  let cache := s.placeholderFrame.getD (s.frameWidth, s.frameHeight)
  let epoch := s.startTime.getD now
  ({ width := cache.1, height := cache.2,
     pts := pyInt ((now - epoch) * 90000),
     timeBaseNum := 1, timeBaseDen := 90000, isPlaceholder := true },
   { s with placeholderFrame := some cache, startTime := some epoch })

/-- The result of one `recv` call: the returned frame, the updated track
state, the calls made on the capture device, and the `asyncio.sleep`
durations (in seconds) awaited during the call. -/
structure RecvResult where
  frame : Frame
  state : TrackState
  events : List Ev
  sleeps : List ℚ
deriving DecidableEq, Repr

/-- Lines 93-148, `recv`: ensure the capture is started (placeholder on
failure); read a frame (on failure increment the counter, release and
discard the session, placeholder); on a valid frame reset the counter,
convert and stamp it (placeholder if conversion raises), and update the
cached dimensions, invalidating the cached placeholder, when they differ
from the frame's. -/
def recv (s : TrackState) (e : Env) : RecvResult :=
  match ensureCaptureStarted s e with
  | (none, s1, evs) =>
    let (f, s2) := createBlackFrame s1 e.now
    ⟨f, s2, evs, [1 / (s1.targetFps : ℚ)]⟩
  | (some sid, s1, evs) =>
    match e.readFrame with
    | none =>
      let s2 := { s1 with
                  consecutiveReadFailures := s1.consecutiveReadFailures + 1,
                  cap := none }
      let (f, s3) := createBlackFrame s2 e.now
      ⟨f, s3, evs ++ [Ev.readCall sid false, Ev.release sid],
        [1 / 10, 1 / (s2.targetFps : ℚ)]⟩
    | some img =>
      let s2 := { s1 with consecutiveReadFailures := 0,
                          frameCounter := s1.frameCounter + 1 }
      if e.convertOk then
        let epoch := s2.startTime.getD e.now
        let s3 := { s2 with startTime := some epoch }
        let s4 := if img.height = s3.frameHeight ∧ img.width = s3.frameWidth
                  then s3
                  else { s3 with frameHeight := img.height,
                                 frameWidth := img.width,
                                 placeholderFrame := none }
        ⟨{ width := img.width, height := img.height,
           pts := pyInt ((e.now - epoch) * 90000),
           timeBaseNum := 1, timeBaseDen := 90000, isPlaceholder := false },
         s4, evs ++ [Ev.readCall sid true], []⟩
      else
        let (f, s3) := createBlackFrame s2 e.now
        ⟨f, s3, evs ++ [Ev.readCall sid true], [1 / (s2.targetFps : ℚ)]⟩

/-- Lines 150-155, `stop`: release `self.cap` if present and set it to
`None`. (The `super().stop()` call belongs to the external aiortc base
class and is outside the embedding.) -/
def stop (s : TrackState) : TrackState × List Ev :=
  match s.cap with
  | some sid => ({ s with cap := none }, [Ev.release sid])
  | none => (s, [])

/-- A call the transport adapter can make on the track. -/
inductive Call where
  | recvC (e : Env)
  | stopC
deriving DecidableEq, Repr

/-- One call, returning the new state and the capture-device events. -/
def stepCall (s : TrackState) : Call → TrackState × List Ev
  | Call.recvC e => ((recv s e).state, (recv s e).events)
  | Call.stopC => stop s

/-- The capture-device event trace of a sequence of calls. -/
def runEvents (s : TrackState) : List Call → List Ev
  | [] => []
  | c :: cs => (stepCall s c).2 ++ runEvents (stepCall s c).1 cs

/-- The state after a sequence of calls. -/
def runState (s : TrackState) : List Call → TrackState
  | [] => s
  | c :: cs => runState (stepCall s c).1 cs

/-- The frames returned by a sequence of `recv` calls. -/
def runFrames (s : TrackState) : List Env → List Frame
  | [] => []
  | e :: es => (recv s e).frame :: runFrames (recv s e).state es

/-- Helper: is an event an open attempt on the capture device? -/
def isOpenEv : Ev → Bool
  | Ev.openAttempt _ _ => true
  | _ => false

/-- Helper: is an event a read call on the capture device? -/
def isReadEv : Ev → Bool
  | Ev.readCall _ _ => true
  | _ => false

/-- Helper: is an event a release of the capture object with id `sid`? -/
def isReleaseOf (sid : Nat) : Ev → Bool
  | Ev.release s => s == sid
  | _ => false

/-- Helper: the ghost id of the capture object an event involves. -/
def evSid : Ev → Nat
  | Ev.openAttempt s _ => s
  | Ev.readCall s _ => s
  | Ev.release s => s

/-- Helper: does an event involve the capture object with id `sid`? -/
def mentions (sid : Nat) (ev : Ev) : Bool :=
  evSid ev == sid

/-- Helper: is an event a release of any capture object? -/
def isReleaseEv : Ev → Bool
  | Ev.release _ => true
  | _ => false

/-! ### Helper lemmas about single calls -/

/-- Python `int()` of an integer value is that integer. -/
theorem pyInt_intCast (n : Int) : pyInt (n : ℚ) = n := by
  unfold pyInt
  split <;> simp

/-- Python `int()` of zero. -/
theorem pyInt_zero : pyInt 0 = 0 := by
  simpa using pyInt_intCast 0

/-- Python `int()` is monotone. -/
theorem pyInt_mono {q r : ℚ} (h : q ≤ r) : pyInt q ≤ pyInt r := by
  unfold pyInt
  split <;> split
  · exact Int.ceil_le_ceil h
  · calc ⌈q⌉ ≤ ⌈(0:ℚ)⌉ := Int.ceil_le_ceil (by linarith)
      _ = 0 := by simp
      _ ≤ ⌊r⌋ := Int.floor_nonneg.mpr (by linarith)
  · linarith [Int.le_ceil q, (Int.lt_floor_add_one q)]
  · exact Int.floor_le_floor h

/-- The first component of `_create_black_frame`, explicitly. -/
theorem createBlackFrame_fst (s : TrackState) (now : ℚ) :
    (createBlackFrame s now).1 =
      { width := (s.placeholderFrame.getD (s.frameWidth, s.frameHeight)).1,
        height := (s.placeholderFrame.getD (s.frameWidth, s.frameHeight)).2,
        pts := pyInt ((now - s.startTime.getD now) * 90000),
        timeBaseNum := 1, timeBaseDen := 90000, isPlaceholder := true } := rfl

/-- The second component of `_create_black_frame`, explicitly. -/
theorem createBlackFrame_snd (s : TrackState) (now : ℚ) :
    (createBlackFrame s now).2 =
      { s with placeholderFrame :=
                 some (s.placeholderFrame.getD (s.frameWidth, s.frameHeight)),
               startTime := some (s.startTime.getD now) } := rfl

/-- Unfolding `recv` when no session is open and the open attempt fails
(lines 94-98): the fresh capture object is released and a placeholder is
returned after pacing. -/
theorem recv_closed_openFail (s : TrackState) (e : Env)
    (hc : s.cap = none) (ho : e.openOk = false) :
    recv s e =
      ⟨(createBlackFrame
          { s with cap := none, nextSessionId := s.nextSessionId + 1 } e.now).1,
       (createBlackFrame
          { s with cap := none, nextSessionId := s.nextSessionId + 1 } e.now).2,
       [Ev.openAttempt s.nextSessionId false, Ev.release s.nextSessionId],
       [1 / (s.targetFps : ℚ)]⟩ := by
  simp [recv, ensureCaptureStarted, hc, ho]

/-- Unfolding `recv` when no session is open and the open attempt succeeds:
the call continues exactly as a call on the opened state, with the
successful open attempt recorded first. -/
theorem recv_closed_openOk (s : TrackState) (e : Env)
    (hc : s.cap = none) (ho : e.openOk = true) :
    recv s e =
      ⟨(recv (openedState s e.now) e).frame,
       (recv (openedState s e.now) e).state,
       Ev.openAttempt s.nextSessionId true :: (recv (openedState s e.now) e).events,
       (recv (openedState s e.now) e).sleeps⟩ := by
  rcases hr : e.readFrame with _ | img
  · simp [recv, ensureCaptureStarted, openedState, hc, ho, hr]
  · cases hcv : e.convertOk <;>
      simp [recv, ensureCaptureStarted, openedState, hc, ho, hr, hcv]

/-- Unfolding `recv` when a session is open and the read fails
(lines 100-116): the counter is incremented, the session is released and
discarded, and a placeholder is returned after pacing. -/
theorem recv_open_readFail (s : TrackState) (e : Env) (sid : Nat)
    (hc : s.cap = some sid) (hr : e.readFrame = none) :
    recv s e =
      ⟨(createBlackFrame
          { s with consecutiveReadFailures := s.consecutiveReadFailures + 1,
                   cap := none } e.now).1,
       (createBlackFrame
          { s with consecutiveReadFailures := s.consecutiveReadFailures + 1,
                   cap := none } e.now).2,
       [Ev.readCall sid false, Ev.release sid],
       [1 / 10, 1 / (s.targetFps : ℚ)]⟩ := by
  simp [recv, ensureCaptureStarted, hc, hr]

/-- Unfolding `recv` when a session is open, the read succeeds and the
conversion succeeds (lines 118-143): the counter resets, the frame is
stamped, and differing dimensions update the cache. -/
theorem recv_open_readOk (s : TrackState) (e : Env) (sid : Nat) (img : Img)
    (hc : s.cap = some sid) (hr : e.readFrame = some img)
    (hcv : e.convertOk = true) :
    recv s e =
      ⟨{ width := img.width, height := img.height,
         pts := pyInt ((e.now - s.startTime.getD e.now) * 90000),
         timeBaseNum := 1, timeBaseDen := 90000, isPlaceholder := false },
       (if img.height = s.frameHeight ∧ img.width = s.frameWidth then
          { s with consecutiveReadFailures := 0,
                   frameCounter := s.frameCounter + 1,
                   startTime := some (s.startTime.getD e.now) }
        else
          { s with consecutiveReadFailures := 0,
                   frameCounter := s.frameCounter + 1,
                   startTime := some (s.startTime.getD e.now),
                   frameHeight := img.height, frameWidth := img.width,
                   placeholderFrame := none }),
       [Ev.readCall sid true], []⟩ := by
  simp only [recv, ensureCaptureStarted, hc, hr, hcv]
  split <;> simp_all

/-- Unfolding `recv` when a session is open, the read succeeds but the
conversion raises (lines 144-148): the counter still resets, the frame
counter still advances, and a placeholder is returned. -/
theorem recv_open_convertFail (s : TrackState) (e : Env) (sid : Nat)
    (img : Img) (hc : s.cap = some sid) (hr : e.readFrame = some img)
    (hcv : e.convertOk = false) :
    recv s e =
      ⟨(createBlackFrame
          { s with consecutiveReadFailures := 0,
                   frameCounter := s.frameCounter + 1 } e.now).1,
       (createBlackFrame
          { s with consecutiveReadFailures := 0,
                   frameCounter := s.frameCounter + 1 } e.now).2,
       [Ev.readCall sid true], [1 / (s.targetFps : ℚ)]⟩ := by
  simp [recv, ensureCaptureStarted, hc, hr, hcv]

/-- With an open session, `recv` leaves `_start_time` set, to its previous
value when it was already set and to this call's clock reading otherwise. -/
theorem startTime_recv_open (s : TrackState) (e : Env) (sid : Nat)
    (hc : s.cap = some sid) :
    (recv s e).state.startTime = some (s.startTime.getD e.now) := by
  rcases hr : e.readFrame with _ | img
  · rw [recv_open_readFail s e sid hc hr]; simp [createBlackFrame_snd]
  · cases hcv : e.convertOk
    · rw [recv_open_convertFail s e sid img hc hr hcv]
      simp [createBlackFrame_snd]
    · rw [recv_open_readOk s e sid img hc hr hcv]
      split <;> simp

/-- Every `recv` call leaves `_start_time` set, to its previous value when it
was already set and to this call's clock reading otherwise. -/
theorem startTime_recv (s : TrackState) (e : Env) :
    (recv s e).state.startTime = some (s.startTime.getD e.now) := by
  rcases hc : s.cap with _ | sid
  · cases ho : e.openOk
    · rw [recv_closed_openFail s e hc ho]; simp [createBlackFrame_snd]
    · rw [recv_closed_openOk s e hc ho]
      show (recv (openedState s e.now) e).state.startTime = _
      rw [startTime_recv_open (openedState s e.now) e s.nextSessionId rfl]
      simp [openedState]
  · exact startTime_recv_open s e sid hc

/-- With an open session, the returned frame is stamped
`pts = int((now - epoch) * 90000)`. -/
theorem pts_recv_open (s : TrackState) (e : Env) (sid : Nat)
    (hc : s.cap = some sid) :
    (recv s e).frame.pts = pyInt ((e.now - s.startTime.getD e.now) * 90000) := by
  rcases hr : e.readFrame with _ | img
  · rw [recv_open_readFail s e sid hc hr]; simp [createBlackFrame_fst]
  · cases hcv : e.convertOk
    · rw [recv_open_convertFail s e sid img hc hr hcv]
      simp [createBlackFrame_fst]
    · rw [recv_open_readOk s e sid img hc hr hcv]

/-- Every frame returned by `recv` is stamped
`pts = int((now - epoch) * 90000)` against the epoch in force at the end of
the call. -/
theorem pts_recv (s : TrackState) (e : Env) :
    (recv s e).frame.pts = pyInt ((e.now - s.startTime.getD e.now) * 90000) := by
  rcases hc : s.cap with _ | sid
  · cases ho : e.openOk
    · rw [recv_closed_openFail s e hc ho]; simp [createBlackFrame_fst]
    · rw [recv_closed_openOk s e hc ho]
      show (recv (openedState s e.now) e).frame.pts = _
      rw [pts_recv_open (openedState s e.now) e s.nextSessionId rfl]
      simp [openedState]
  · exact pts_recv_open s e sid hc

/-- With an open session, the returned frame carries `time_base = 1/90000`. -/
theorem timeBase_recv_open (s : TrackState) (e : Env) (sid : Nat)
    (hc : s.cap = some sid) :
    (recv s e).frame.timeBaseNum = 1 ∧
      (recv s e).frame.timeBaseDen = 90000 := by
  rcases hr : e.readFrame with _ | img
  · rw [recv_open_readFail s e sid hc hr]; simp [createBlackFrame_fst]
  · cases hcv : e.convertOk
    · rw [recv_open_convertFail s e sid img hc hr hcv]
      simp [createBlackFrame_fst]
    · rw [recv_open_readOk s e sid img hc hr hcv]
      simp

/-- Every frame returned by `recv` carries `time_base = 1/90000`. -/
theorem timeBase_recv (s : TrackState) (e : Env) :
    (recv s e).frame.timeBaseNum = 1 ∧
      (recv s e).frame.timeBaseDen = 90000 := by
  rcases hc : s.cap with _ | sid
  · cases ho : e.openOk
    · rw [recv_closed_openFail s e hc ho]; simp [createBlackFrame_fst]
    · rw [recv_closed_openOk s e hc ho]
      exact timeBase_recv_open (openedState s e.now) e s.nextSessionId rfl
  · exact timeBase_recv_open s e sid hc

/-- With an open session, the failure counter after `recv` is the previous
value plus one on a failed read and 0 on a valid read. -/
theorem consecutiveReadFailures_recv_open (s : TrackState) (e : Env)
    (sid : Nat) (hc : s.cap = some sid) :
    (recv s e).state.consecutiveReadFailures =
      if e.readFrame = none then s.consecutiveReadFailures + 1 else 0 := by
  rcases hr : e.readFrame with _ | img
  · rw [recv_open_readFail s e sid hc hr]; simp [createBlackFrame_snd]
  · cases hcv : e.convertOk
    · rw [recv_open_convertFail s e sid img hc hr hcv]
      simp [createBlackFrame_snd]
    · rw [recv_open_readOk s e sid img hc hr hcv]
      split <;> simp

/-- The failure counter after one `recv` call: unchanged when the open
attempt fails, incremented (from 0 when the call began with a fresh
successful open, from its previous value otherwise) when the read fails,
and 0 after any valid read. -/
theorem consecutiveReadFailures_recv (s : TrackState) (e : Env) :
    (recv s e).state.consecutiveReadFailures =
      if s.cap = none ∧ e.openOk = false then s.consecutiveReadFailures
      else if e.readFrame = none then
        (if s.cap = none then 0 else s.consecutiveReadFailures) + 1
      else 0 := by
  rcases hc : s.cap with _ | sid
  · cases ho : e.openOk
    · rw [recv_closed_openFail s e hc ho]
      simp [createBlackFrame_snd, hc, ho]
    · rw [recv_closed_openOk s e hc ho]
      show (recv (openedState s e.now) e).state.consecutiveReadFailures = _
      rw [consecutiveReadFailures_recv_open (openedState s e.now) e
        s.nextSessionId rfl]
      simp [ho, openedState]
  · have h := consecutiveReadFailures_recv_open s e sid hc
    simp [h, hc]

/-- With an open session, the returned frame is the placeholder exactly
when the read or the conversion failed. -/
theorem isPlaceholder_recv_open (s : TrackState) (e : Env) (sid : Nat)
    (hc : s.cap = some sid) :
    (recv s e).frame.isPlaceholder =
      (e.readFrame.isNone || !e.convertOk) := by
  rcases hr : e.readFrame with _ | img
  · rw [recv_open_readFail s e sid hc hr]; simp [createBlackFrame_fst]
  · cases hcv : e.convertOk
    · rw [recv_open_convertFail s e sid img hc hr hcv]
      simp [createBlackFrame_fst]
    · rw [recv_open_readOk s e sid img hc hr hcv]
      simp

/-- The returned frame is the black placeholder exactly when the open
attempt, the read, or the conversion failed. -/
theorem isPlaceholder_recv (s : TrackState) (e : Env) :
    (recv s e).frame.isPlaceholder =
      ((decide (s.cap = none) && !e.openOk) || e.readFrame.isNone
        || !e.convertOk) := by
  rcases hc : s.cap with _ | sid
  · cases ho : e.openOk
    · rw [recv_closed_openFail s e hc ho]; simp [createBlackFrame_fst, ho]
    · rw [recv_closed_openOk s e hc ho]
      show (recv (openedState s e.now) e).frame.isPlaceholder = _
      rw [isPlaceholder_recv_open (openedState s e.now) e
        s.nextSessionId rfl]
      simp [ho]
  · have h := isPlaceholder_recv_open s e sid hc
    simp [h, hc]

/-- With an open session, one `recv` call keeps the ghost counter, and
either the read failed, the session was released, and exactly its two
capture calls happened, or the read succeeded and the session stays open. -/
theorem recv_open_cases (s : TrackState) (e : Env) (sid : Nat)
    (hc : s.cap = some sid) :
    (recv s e).state.nextSessionId = s.nextSessionId ∧
      (((recv s e).state.cap = none ∧
          (recv s e).events = [Ev.readCall sid false, Ev.release sid]) ∨
        ((recv s e).state.cap = some sid ∧
          (recv s e).events = [Ev.readCall sid true])) := by
  rcases hr : e.readFrame with _ | img
  · rw [recv_open_readFail s e sid hc hr]
    simp [createBlackFrame_snd]
  · cases hcv : e.convertOk
    · rw [recv_open_convertFail s e sid img hc hr hcv]
      simp [createBlackFrame_snd, hc]
    · rw [recv_open_readOk s e sid img hc hr hcv]
      split <;> simp [hc]

/-- With no open session, one `recv` call advances the ghost counter by
one, and the call either failed to open (the fresh object is released),
opened and failed to read (the fresh session is released), or opened and
read, leaving the fresh session open. -/
theorem recv_closed_cases (s : TrackState) (e : Env)
    (hc : s.cap = none) :
    (recv s e).state.nextSessionId = s.nextSessionId + 1 ∧
      (((recv s e).state.cap = none ∧
          (recv s e).events =
            [Ev.openAttempt s.nextSessionId false,
             Ev.release s.nextSessionId]) ∨
        ((recv s e).state.cap = none ∧
          (recv s e).events =
            [Ev.openAttempt s.nextSessionId true,
             Ev.readCall s.nextSessionId false,
             Ev.release s.nextSessionId]) ∨
        ((recv s e).state.cap = some s.nextSessionId ∧
          (recv s e).events =
            [Ev.openAttempt s.nextSessionId true,
             Ev.readCall s.nextSessionId true])) := by
  cases ho : e.openOk
  · rw [recv_closed_openFail s e hc ho]
    simp [createBlackFrame_snd]
  · rw [recv_closed_openOk s e hc ho]
    have hcap : (openedState s e.now).cap = some s.nextSessionId := rfl
    obtain ⟨h1, h2⟩ := recv_open_cases (openedState s e.now) e s.nextSessionId hcap
    have hnid : (openedState s e.now).nextSessionId = s.nextSessionId + 1 := rfl
    rcases h2 with ⟨ha, hb⟩ | ⟨ha, hb⟩ <;>
      simp [ha, hb, h1, hnid]

/-- Every `recv` call with no open session attempts exactly one open, and a
call with an open session attempts none: the machine retries on every tick
and never gives up. -/
theorem openAttempts_recv (s : TrackState) (e : Env) :
    (recv s e).events.countP (fun ev => isOpenEv ev) =
      if s.cap = none then 1 else 0 := by
  rcases hc : s.cap with _ | sid
  · rcases (recv_closed_cases s e hc).2 with ⟨_, hb⟩ | ⟨_, hb⟩ | ⟨_, hb⟩ <;>
      simp [hb, isOpenEv, List.countP_cons]
  · rcases (recv_open_cases s e sid hc).2 with ⟨_, hb⟩ | ⟨_, hb⟩ <;>
      simp [hb, hc, isOpenEv, List.countP_cons]

/-- The ghost session counter never decreases across a call. -/
theorem nextSessionId_mono_step (s : TrackState) (c : Call) :
    s.nextSessionId ≤ (stepCall s c).1.nextSessionId := by
  rcases c with e | _
  · show s.nextSessionId ≤ (recv s e).state.nextSessionId
    rcases hc : s.cap with _ | sid
    · rw [(recv_closed_cases s e hc).1]; omega
    · rw [(recv_open_cases s e sid hc).1]
  · unfold stepCall stop
    rcases s.cap with _ | sid <;> simp

/-- A session open after a call is the session that was already open when
the call began, or one with a fresh ghost id. -/
theorem cap_step (s : TrackState) (c : Call) (sid : Nat)
    (h : (stepCall s c).1.cap = some sid) :
    s.cap = some sid ∨ s.nextSessionId ≤ sid := by
  rcases c with e | _
  · replace h : (recv s e).state.cap = some sid := h
    rcases hc : s.cap with _ | sid'
    · rcases (recv_closed_cases s e hc).2 with ⟨ha, _⟩ | ⟨ha, _⟩ | ⟨ha, _⟩ <;>
        rw [ha] at h
      · exact absurd h (by simp)
      · exact absurd h (by simp)
      · simp only [Option.some.injEq] at h
        right
        omega
    · rcases (recv_open_cases s e sid' hc).2 with ⟨ha, _⟩ | ⟨ha, _⟩ <;>
        rw [ha] at h
      · exact absurd h (by simp)
      · left
        exact h
  · have hs : stepCall s Call.stopC = stop s := rfl
    rw [hs] at h
    unfold stop at h
    rcases hc : s.cap with _ | sid' <;> simp [hc] at h

/-- Every capture-device call during one step involves either the session
open when the step began or the freshly allocated ghost id. -/
theorem evSid_step (s : TrackState) (c : Call) :
    ∀ ev ∈ (stepCall s c).2,
      s.cap = some (evSid ev) ∨ evSid ev = s.nextSessionId := by
  rcases c with e | _
  · intro ev hev
    replace hev : ev ∈ (recv s e).events := hev
    rcases hc : s.cap with _ | sid'
    · rcases (recv_closed_cases s e hc).2 with ⟨_, hb⟩ | ⟨_, hb⟩ | ⟨_, hb⟩ <;>
        rw [hb] at hev <;> fin_cases hev <;> right <;> rfl
    · rcases (recv_open_cases s e sid' hc).2 with ⟨_, hb⟩ | ⟨_, hb⟩ <;>
        rw [hb] at hev <;> fin_cases hev <;> simp [hc, evSid]
  · intro ev hev
    have hs : stepCall s Call.stopC = stop s := rfl
    rw [hs] at hev
    unfold stop at hev
    rcases hc : s.cap with _ | sid' <;> simp [hc] at hev
    subst hev
    simp [hc, evSid]

/-- Every capture-device call during one step involves either the session
open when the step began or a fresh ghost id. -/
theorem mentions_step (s : TrackState) (c : Call) (sid : Nat) (ev : Ev)
    (hev : ev ∈ (stepCall s c).2) (hm : mentions sid ev = true) :
    s.cap = some sid ∨ s.nextSessionId ≤ sid := by
  have hsid : evSid ev = sid := by
    simpa [mentions] using hm
  rcases evSid_step s c ev hev with h | h
  · left
    rw [← hsid]
    exact h
  · right
    omega

/-- A ghost id below the counter that is not the open session is never
involved in any later capture-device call. -/
theorem no_mention_runEvents (s : TrackState) (calls : List Call) (sid : Nat)
    (hlt : sid < s.nextSessionId) (hcap : s.cap ≠ some sid) :
    ∀ ev ∈ runEvents s calls, mentions sid ev = false := by
  induction calls generalizing s with
  | nil => intro ev hev; simp [runEvents] at hev
  | cons c cs ih =>
    intro ev hev
    rw [runEvents] at hev
    rcases List.mem_append.mp hev with h | h
    · by_contra hb
      have hm : mentions sid ev = true := by
        cases hmv : mentions sid ev
        · exact absurd hmv hb
        · rfl
      rcases mentions_step s c sid ev h hm with h' | h'
      · exact hcap h'
      · omega
    · have hlt' : sid < (stepCall s c).1.nextSessionId :=
        Nat.lt_of_lt_of_le hlt (nextSessionId_mono_step s c)
      have hcap' : (stepCall s c).1.cap ≠ some sid := by
        intro hx
        rcases cap_step s c sid hx with h' | h'
        · exact hcap h'
        · omega
      exact ih (stepCall s c).1 hlt' hcap' ev h

/-- One call on a state with an open session either releases exactly that
session (and closes it), or does not release it at all and keeps it open
without advancing the ghost counter. -/
theorem step_cap_some (s : TrackState) (c : Call) (sid : Nat)
    (h : s.cap = some sid) :
    ((stepCall s c).2.countP (fun ev => isReleaseOf sid ev) = 1 ∧
      (stepCall s c).1.cap = none) ∨
    ((stepCall s c).2.countP (fun ev => isReleaseOf sid ev) = 0 ∧
      (stepCall s c).1.cap = some sid ∧
      (stepCall s c).1.nextSessionId = s.nextSessionId) := by
  rcases c with e | _
  · rcases recv_open_cases s e sid h with ⟨hn, ⟨ha, hb⟩ | ⟨ha, hb⟩⟩
    · left
      refine ⟨?_, ha⟩
      show ((recv s e).events.countP _) = 1
      rw [hb]
      simp [isReleaseOf, List.countP_cons]
    · right
      refine ⟨?_, ha, hn⟩
      show ((recv s e).events.countP _) = 0
      rw [hb]
      simp [isReleaseOf, List.countP_cons]
  · left
    have hs : stepCall s Call.stopC = stop s := rfl
    rw [hs]
    unfold stop
    rw [h]
    simp [isReleaseOf, List.countP_cons]

/-- Release events are `mentions` events. -/
theorem isReleaseOf_mentions (sid : Nat) (ev : Ev)
    (h : isReleaseOf sid ev = true) : mentions sid ev = true := by
  rcases ev with _ | _ | z
  · exact absurd h (by simp [isReleaseOf])
  · exact absurd h (by simp [isReleaseOf])
  · simpa [isReleaseOf, mentions, evSid] using h

/-- A ghost id below the counter that is not the open session is never
released over any sequence of later calls. -/
theorem no_release_runEvents (s : TrackState) (calls : List Call) (sid : Nat)
    (hlt : sid < s.nextSessionId) (hcap : s.cap ≠ some sid) :
    (runEvents s calls).countP (fun ev => isReleaseOf sid ev) = 0 := by
  rw [List.countP_eq_zero]
  intro ev hev hx
  have hm := no_mention_runEvents s calls sid hlt hcap ev hev
  rw [isReleaseOf_mentions sid ev hx] at hm
  exact absurd hm (by simp)

/-- A session that is open is released at most once over any sequence of
later calls. -/
theorem release_le_one_run (s : TrackState) (calls : List Call) (sid : Nat)
    (hcap : s.cap = some sid) (hlt : sid < s.nextSessionId) :
    (runEvents s calls).countP (fun ev => isReleaseOf sid ev) ≤ 1 := by
  induction calls generalizing s with
  | nil => simp [runEvents]
  | cons c cs ih =>
    rw [runEvents, List.countP_append]
    rcases step_cap_some s c sid hcap with ⟨h1, h2⟩ | ⟨h1, h2, h3⟩
    · have htail := no_release_runEvents (stepCall s c).1 cs sid
        (Nat.lt_of_lt_of_le hlt (nextSessionId_mono_step s c))
        (by rw [h2]; simp)
      rw [h1, htail]
    · have := ih (stepCall s c).1 h2 (by rw [h3]; exact hlt)
      rw [h1]
      omega

/-- The unfolding of `stop` on a state with no open session. -/
theorem stop_none (s : TrackState) (h : s.cap = none) : stop s = (s, []) := by
  unfold stop
  rw [h]

/-- The unfolding of `stop` on a state with an open session. -/
theorem stop_some (s : TrackState) (sid : Nat) (h : s.cap = some sid) :
    stop s = ({ s with cap := none }, [Ev.release sid]) := by
  unfold stop
  rw [h]

/-- After `stop`, no session is open. -/
theorem stop_cap (s : TrackState) : (stop s).1.cap = none := by
  rcases h : s.cap with _ | sid
  · rw [stop_none s h, h]
  · rw [stop_some s sid h]

/-- Calling `stop` twice: the second call finds no session and is a no-op. -/
theorem stop_idem (s : TrackState) :
    stop (stop s).1 = ((stop s).1, []) :=
  stop_none (stop s).1 (stop_cap s)

/-- `stop` never changes `_start_time`. -/
theorem stop_startTime (s : TrackState) : (stop s).1.startTime = s.startTime := by
  rcases h : s.cap with _ | sid
  · rw [stop_none s h]
  · rw [stop_some s sid h]

/-- Once `_start_time` is set, one call never changes it. -/
theorem startTime_step (s : TrackState) (c : Call) (t : ℚ)
    (h : s.startTime = some t) : (stepCall s c).1.startTime = some t := by
  rcases c with e | _
  · show (recv s e).state.startTime = some t
    rw [startTime_recv s e, h]
    rfl
  · show (stop s).1.startTime = some t
    rw [stop_startTime s, h]

/-- Once `_start_time` is set, no sequence of calls ever changes it. -/
theorem runState_startTime (s : TrackState) (calls : List Call) (t : ℚ)
    (h : s.startTime = some t) : (runState s calls).startTime = some t := by
  induction calls generalizing s with
  | nil => exact h
  | cons c cs ih =>
    rw [runState]
    exact ih (stepCall s c).1 (startTime_step s c t h)

/-- With the epoch already set to `t`, the returned presentation timestamps
of a run are exactly `int((now - t) * 90000)` of the per-call clock
readings. -/
theorem runFrames_pts (s : TrackState) (es : List Env) (t : ℚ)
    (h : s.startTime = some t) :
    (runFrames s es).map Frame.pts =
      es.map (fun e => pyInt ((e.now - t) * 90000)) := by
  induction es generalizing s with
  | nil => rfl
  | cons e es ih =>
    rw [runFrames, List.map_cons, List.map_cons]
    have h1 : (recv s e).frame.pts = pyInt ((e.now - t) * 90000) := by
      rw [pts_recv s e, h]
      rfl
    have h2 : (recv s e).state.startTime = some t := by
      rw [startTime_recv s e, h]
      rfl
    rw [h1, ih (recv s e).state h2]

/-- A sequence of `stop` calls makes no open or read call on the capture
device, and releases the open session exactly once if there is one. -/
theorem runEvents_stops (s : TrackState) (calls : List Call)
    (h : ∀ c ∈ calls, c = Call.stopC) :
    (runEvents s calls).countP (fun ev => isOpenEv ev || isReadEv ev) = 0 ∧
      (runEvents s calls).countP (fun ev => isReleaseEv ev) =
        (if s.cap = none ∨ calls = [] then 0 else 1) := by
  induction calls generalizing s with
  | nil => simp [runEvents]
  | cons c cs ih =>
    have hc : c = Call.stopC := h c (by simp)
    subst hc
    have hcs : ∀ c ∈ cs, c = Call.stopC := fun c hx => h c (by simp [hx])
    rw [runEvents, List.countP_append, List.countP_append]
    have hstep : stepCall s Call.stopC = stop s := rfl
    rcases hcap : s.cap with _ | sid
    · rw [hstep, stop_none s hcap]
      obtain ⟨ih1, ih2⟩ := ih s hcs
      constructor
      · simpa using ih1
      · rcases hcs' : cs with _ | _
        · simp [hcap, runEvents]
        · rw [← hcs']
          simp only [List.countP_nil, Nat.zero_add]
          rw [ih2]
          simp [hcap, hcs']
    · rw [hstep, stop_some s sid hcap]
      obtain ⟨ih1, ih2⟩ := ih { s with cap := none } hcs
      constructor
      · simpa [isOpenEv, isReadEv, List.countP_cons] using ih1
      · simp only [List.countP_cons, List.countP_nil]
        rw [ih2]
        simp [hcap, isReleaseEv]

/-! ### Claims -/

/-- Claim C4 (confirmed): `recv` is a total function of the track state and
the open/read/convert outcomes — modelling that no `OpenError` or
`ReadError` propagates to the transport — and the frame it returns is the
black placeholder exactly when the open attempt, the read, or the
conversion failed, a real converted frame otherwise; every returned frame
carries the displayable 90 kHz time base. -/
theorem C4_recv_never_fails (s : TrackState) (e : Env) :
    (recv s e).frame.isPlaceholder =
        ((decide (s.cap = none) && !e.openOk) || e.readFrame.isNone
          || !e.convertOk) ∧
      (recv s e).frame.timeBaseNum = 1 ∧
      (recv s e).frame.timeBaseDen = 90000 :=
  ⟨isPlaceholder_recv s e, (timeBase_recv s e).1, (timeBase_recv s e).2⟩

/-- Claim C2 (counterexample): a failed open attempt does not increment the
consecutive-failure counter: from the freshly constructed state, one
`recv` whose open attempt fails leaves the counter at 0, not at the
previous value plus 1 as the claim requires. -/
theorem C2_counterexample :
    (recv initState ⟨false, none, true, 0⟩).state.consecutiveReadFailures ≠
      initState.consecutiveReadFailures + 1 := by
  rw [consecutiveReadFailures_recv]
  simp [initState]

/-- Claim C2 (amended): the counter resets to 0 on every successful open
and on every successful real-frame read, and increments by 1 only on a
failed read; failed open attempts leave it unchanged. Consequently, if
open fails N consecutive times from a closed-session state, the counter
still equals its initial value (not N) immediately before the successful
open, and after the successful open it is 0 — so the first call that opens
successfully returns with the counter at 1 on a failed read and 0 on a
successful one. -/
theorem C2_amended_counter (s : TrackState) (es : List Env) (e : Env)
    (hcap : s.cap = none) (hfail : ∀ x ∈ es, x.openOk = false)
    (hok : e.openOk = true) :
    (runState s (es.map Call.recvC)).consecutiveReadFailures =
        s.consecutiveReadFailures ∧
      (runState s
          (es.map Call.recvC ++ [Call.recvC e])).consecutiveReadFailures =
        (if e.readFrame = none then 1 else 0) := by
  induction es generalizing s with
  | nil =>
    refine ⟨rfl, ?_⟩
    show (recv s e).state.consecutiveReadFailures = _
    rw [consecutiveReadFailures_recv]
    simp [hcap, hok]
  | cons x xs ih =>
    have hx : x.openOk = false := hfail x (by simp)
    have hxs : ∀ y ∈ xs, y.openOk = false := fun y hy => hfail y (by simp [hy])
    have hstep : stepCall s (Call.recvC x) = ((recv s x).state, (recv s x).events) := rfl
    have hcap' : (recv s x).state.cap = none := by
      rw [recv_closed_openFail s x hcap hx]
      show (createBlackFrame _ x.now).2.cap = none
      rw [createBlackFrame_snd]
    have hcnt : (recv s x).state.consecutiveReadFailures =
        s.consecutiveReadFailures := by
      rw [consecutiveReadFailures_recv]
      simp [hcap, hx]
    obtain ⟨ih1, ih2⟩ := ih (recv s x).state hcap' hxs
    constructor
    · show (runState (recv s x).state
          (xs.map Call.recvC)).consecutiveReadFailures = _
      rw [ih1, hcnt]
    · show (runState (recv s x).state
          (xs.map Call.recvC ++ [Call.recvC e])).consecutiveReadFailures = _
      rw [ih2]

/-- Claim C6 (counterexample): the presentation timestamp is computed with
Python `int()` (truncation), not with `round`: with the epoch at 0 and the
clock at 17/900000 seconds, the elapsed ticks are 1.7, the code stamps
`pts = 1`, while `round((now - epoch) * 90000) = 2`. -/
theorem C6_counterexample :
    (recv { initState with
              cap := some 0
              nextSessionId := 1
              startTime := some 0 }
        ⟨true, some ⟨640, 480⟩, true, 17 / 900000⟩).frame.pts = 1 ∧
      round ((((17 : ℚ) / 900000) - 0) * 90000) = 2 ∧ (1 : Int) ≠ 2 := by
  refine ⟨?_, ?_, by norm_num⟩
  · rw [pts_recv]
    show pyInt ((17 / 900000 - (Option.some (0:ℚ)).getD (17 / 900000)) * 90000) = 1
    rw [Option.getD_some]
    have h : (((17 : ℚ) / 900000) - 0) * 90000 = 17 / 10 := by norm_num
    rw [h]
    rw [pyInt]
    rw [if_neg (by norm_num)]
    rw [Rat.floor_def]
    norm_num
  · have h : (((17 : ℚ) / 900000) - 0) * 90000 = 17 / 10 := by norm_num
    rw [h, round_eq]
    have h2 : (17 : ℚ) / 10 + 1 / 2 = 11 / 5 := by norm_num
    rw [h2, Rat.floor_def]
    norm_num

/-- Claim C6 (amended): every frame returned by `recv`, real or
placeholder, carries `time_base = 1/90000` and
`pts = int((now - epoch) * 90000)` — truncation toward zero, not rounding
— against the epoch in force at the end of the call. -/
theorem C6_amended_stamp (s : TrackState) (e : Env) :
    (recv s e).frame.timeBaseNum = 1 ∧
      (recv s e).frame.timeBaseDen = 90000 ∧
      (recv s e).state.startTime = some (s.startTime.getD e.now) ∧
      (recv s e).frame.pts =
        pyInt ((e.now - s.startTime.getD e.now) * 90000) :=
  ⟨(timeBase_recv s e).1, (timeBase_recv s e).2, startTime_recv s e,
    pts_recv s e⟩

/-- Claim C10 (confirmed): every assignment to `_start_time` after
construction is guarded by a `None` check, so once the epoch holds a value
`t`, neither `recv` (on any path) nor `stop` changes it, and every frame a
later `recv` returns is stamped against that same `t`. -/
theorem C10_epoch_write_once (s : TrackState) (e : Env) (t : ℚ)
    (h : s.startTime = some t) :
    (recv s e).state.startTime = some t ∧
      (stop s).1.startTime = some t ∧
      (recv s e).frame.pts = pyInt ((e.now - t) * 90000) := by
  refine ⟨?_, ?_, ?_⟩
  · rw [startTime_recv, h]
    rfl
  · rw [stop_startTime, h]
  · rw [pts_recv, h]
    rfl

/-- Witness for C10 at a concrete state with the epoch set to 3. -/
theorem C10_epoch_write_once_witness :
    ({ initState with startTime := some (3 : ℚ) } : TrackState).startTime =
        some (3 : ℚ) ∧
      ((recv { initState with startTime := some (3 : ℚ) }
            ⟨true, some ⟨640, 480⟩, true, 5⟩).state.startTime =
          some (3 : ℚ) ∧
        (stop { initState with startTime := some (3 : ℚ) }).1.startTime =
          some (3 : ℚ) ∧
        (recv { initState with startTime := some (3 : ℚ) }
            ⟨true, some ⟨640, 480⟩, true, 5⟩).frame.pts =
          pyInt ((5 - 3) * 90000)) :=
  ⟨rfl, C10_epoch_write_once _ _ 3 rfl⟩

/-- Claim C3 (counterexample): the epoch is not set at the first successful
open: from the fresh state, a single `recv` whose only open attempt fails
(the event trace shows exactly one failed open attempt) already sets
`_start_time`, via the placeholder path. -/
theorem C3_counterexample :
    (recv initState ⟨false, none, true, 5⟩).state.startTime =
        some (5 : ℚ) ∧
      (recv initState ⟨false, none, true, 5⟩).events =
        [Ev.openAttempt 0 false, Ev.release 0] := by
  constructor
  · rw [startTime_recv]
    rfl
  · rw [recv_closed_openFail initState _ rfl rfl]
    rfl

/-- Claim C3 (amended): the epoch is set exactly once — at the first
successful open, or earlier by the first frame emission when opens have
failed — and once set it is never reset or changed by any later sequence
of calls; in particular a successful (re)open of the capture from a state
whose epoch is already set keeps that epoch. -/
theorem C3_epoch_never_reset (s : TrackState) (calls : List Call) (t : ℚ)
    (h : s.startTime = some t) :
    (runState s calls).startTime = some t ∧
      ∀ now, (openedState s now).startTime = some t := by
  refine ⟨runState_startTime s calls t h, fun now => ?_⟩
  simp [openedState, h]

/-- Claim C1 (counterexample): presentation timestamps are not clamped and
can regress: two placeholder frames produced at wall-clock readings 10
then 9 (a clock regression) carry `pts = 0` and `pts = -90000`, a strictly
decreasing pair instead of the claimed clamp to previous + 1. -/
theorem C1_counterexample :
    ((runFrames initState
        [⟨false, none, true, 10⟩, ⟨false, none, true, 9⟩]).map Frame.pts) =
        [0, -90000] ∧
      ¬ ((0 : Int) ≤ -90000) ∧ (-90000 : Int) ≠ 0 + 1 := by
  refine ⟨?_, by norm_num, by norm_num⟩
  rw [runFrames, List.map_cons]
  have h1 : (recv initState ⟨false, none, true, 10⟩).frame.pts = 0 := by
    rw [pts_recv]
    show pyInt ((10 - (10 : ℚ)) * 90000) = 0
    have h : ((10 : ℚ) - 10) * 90000 = ((0 : Int) : ℚ) := by norm_num
    rw [h, pyInt_intCast]
  have h2 : (recv initState ⟨false, none, true, 10⟩).state.startTime =
      some (10 : ℚ) := by
    rw [startTime_recv]
    rfl
  rw [h1, runFrames_pts _ _ 10 h2]
  have h3 : pyInt (((9 : ℚ) - 10) * 90000) = -90000 := by
    have h : ((9 : ℚ) - 10) * 90000 = ((-90000 : Int) : ℚ) := by norm_num
    rw [h, pyInt_intCast]
  show ([0, pyInt (((9:ℚ) - 10) * 90000)] : List Int) = [0, -90000]
  rw [h3]

/-- Stamping a non-decreasing list of clock readings against a fixed epoch
gives non-decreasing timestamps, since `pyInt` is monotone. -/
theorem sorted_pyInt_map (t : ℚ) (es : List Env)
    (h : List.Sorted (· ≤ ·) (es.map Env.now)) :
    List.Sorted (· ≤ ·)
      (es.map (fun x => pyInt ((x.now - t) * 90000))) := by
  induction es with
  | nil => simp
  | cons e es ih =>
    rw [List.map_cons, List.sorted_cons] at h ⊢
    obtain ⟨hhead, htail⟩ := h
    refine ⟨?_, ih htail⟩
    intro b hb
    rw [List.mem_map] at hb
    obtain ⟨e', he', rfl⟩ := hb
    apply pyInt_mono
    have h1 : e.now ≤ e'.now := hhead e'.now (List.mem_map_of_mem Env.now he')
    nlinarith

/-- Claim C1 (amended): each frame's `pts` is `int((now - epoch) * 90000)`
of that call's clock reading against the fixed epoch, with no clamping;
the sequence of timestamps is therefore non-decreasing whenever the
wall-clock readings are non-decreasing, but a clock regression regresses
`pts` (see the counterexample) and equal readings repeat it. -/
theorem C1_pts_monotone (s : TrackState) (es : List Env)
    (h : List.Sorted (· ≤ ·) (es.map Env.now)) :
    List.Sorted (· ≤ ·) ((runFrames s es).map Frame.pts) := by
  cases es with
  | nil => simp [runFrames]
  | cons e es =>
    rcases hst : s.startTime with _ | t
    · rw [runFrames, List.map_cons]
      have hpts : (recv s e).frame.pts = pyInt ((e.now - e.now) * 90000) := by
        rw [pts_recv, hst]
        rfl
      have hst' : (recv s e).state.startTime = some e.now := by
        rw [startTime_recv, hst]
        rfl
      rw [hpts, runFrames_pts _ _ e.now hst']
      exact sorted_pyInt_map e.now (e :: es) h
    · rw [runFrames_pts s (e :: es) t hst]
      exact sorted_pyInt_map t (e :: es) h

/-- Witness for C1 with a two-call run whose clock readings increase. -/
theorem C1_pts_monotone_witness :
    List.Sorted (· ≤ ·)
        (([⟨false, none, true, 0⟩,
           (⟨false, none, true, 1⟩ : Env)].map Env.now)) ∧
      List.Sorted (· ≤ ·)
        ((runFrames initState
            [⟨false, none, true, 0⟩, ⟨false, none, true, 1⟩]).map
          Frame.pts) :=
  ⟨by simp [List.sorted_cons], C1_pts_monotone initState _
    (by simp [List.sorted_cons])⟩

/-- Witness for C2 with two failed opens followed by a successful open and
read. -/
theorem C2_amended_counter_witness :
    initState.cap = none ∧
      (∀ x ∈ [(⟨false, none, true, 0⟩ : Env), ⟨false, none, true, 1⟩],
        x.openOk = false) ∧
      (⟨true, some ⟨640, 480⟩, true, 2⟩ : Env).openOk = true ∧
      ((runState initState
          ([(⟨false, none, true, 0⟩ : Env),
            ⟨false, none, true, 1⟩].map Call.recvC)).consecutiveReadFailures =
        initState.consecutiveReadFailures ∧
      (runState initState
          ([(⟨false, none, true, 0⟩ : Env),
            ⟨false, none, true, 1⟩].map Call.recvC ++
            [Call.recvC ⟨true, some ⟨640, 480⟩, true,
              2⟩])).consecutiveReadFailures =
        (if (⟨true, some ⟨640, 480⟩, true, 2⟩ : Env).readFrame = none
          then 1 else 0)) :=
  ⟨rfl, by simp, rfl,
    C2_amended_counter initState _ _ rfl (by simp) rfl⟩

/-- Claim C5 (confirmed): when a read from an open session fails, that
session is released exactly once over the whole remaining trace — the
failing call itself releases it and clears the session slot (forcing a
fresh open on the next call), and no later call, including further failed
calls made while no session is open, releases, reads, or opens it again. -/
theorem C5_session_closed_once (s : TrackState) (e : Env) (sid : Nat)
    (rest : List Call) (hcap : s.cap = some sid)
    (hlt : sid < s.nextSessionId) (hr : e.readFrame = none) :
    (runEvents s (Call.recvC e :: rest)).countP
        (fun ev => isReleaseOf sid ev) = 1 ∧
      (recv s e).state.cap = none ∧
      (runEvents (recv s e).state rest).countP
        (fun ev => mentions sid ev) = 0 := by
  have hcap' : (recv s e).state.cap = none := by
    rw [recv_open_readFail s e sid hcap hr]
    show (createBlackFrame _ e.now).2.cap = none
    rw [createBlackFrame_snd]
  have hnid : (recv s e).state.nextSessionId = s.nextSessionId :=
    (recv_open_cases s e sid hcap).1
  have hnm := no_mention_runEvents (recv s e).state rest sid
    (by rw [hnid]; exact hlt) (by rw [hcap']; simp)
  have htail0 : (runEvents (recv s e).state rest).countP
      (fun ev => mentions sid ev) = 0 := by
    rw [List.countP_eq_zero]
    intro ev hev hx
    rw [hnm ev hev] at hx
    exact absurd hx (by simp)
  refine ⟨?_, hcap', htail0⟩
  rw [runEvents, List.countP_append]
  have hev : (stepCall s (Call.recvC e)).2 =
      [Ev.readCall sid false, Ev.release sid] := by
    show (recv s e).events = _
    rw [recv_open_readFail s e sid hcap hr]
  have htail : (runEvents (stepCall s (Call.recvC e)).1 rest).countP
      (fun ev => isReleaseOf sid ev) = 0 := by
    show (runEvents (recv s e).state rest).countP _ = 0
    exact no_release_runEvents _ rest sid (by rw [hnid]; exact hlt)
      (by rw [hcap']; simp)
  rw [hev, htail]
  simp [isReleaseOf, List.countP_cons]

/-- Witness for C5: a session with ghost id 0 whose read fails, followed
by a failed reopen attempt and a stop. -/
theorem C5_session_closed_once_witness :
    ({ initState with
         cap := some 0
         nextSessionId := 1 } : TrackState).cap = some 0 ∧
      (0 : Nat) <
        ({ initState with
             cap := some 0
             nextSessionId := 1 } : TrackState).nextSessionId ∧
      ((⟨true, none, true, 0⟩ : Env)).readFrame = none ∧
      ((runEvents { initState with
             cap := some 0
             nextSessionId := 1 }
          (Call.recvC ⟨true, none, true, 0⟩ ::
            [Call.recvC ⟨false, none, true, 1⟩, Call.stopC])).countP
          (fun ev => isReleaseOf 0 ev) = 1 ∧
        (recv { initState with
             cap := some 0
             nextSessionId := 1 } ⟨true, none, true, 0⟩).state.cap = none ∧
        (runEvents (recv { initState with
             cap := some 0
             nextSessionId := 1 } ⟨true, none, true, 0⟩).state
            [Call.recvC ⟨false, none, true, 1⟩, Call.stopC]).countP
          (fun ev => mentions 0 ev) = 0) :=
  ⟨rfl, Nat.one_pos, rfl,
    C5_session_closed_once _ _ 0 _ rfl Nat.one_pos rfl⟩

/-- Helper for C7: `recv` never reads the threshold field
`maxConsecutiveReadFailures`; the call's entire result is unchanged when
the threshold changes, except that the state carries the changed
threshold through. -/
theorem recv_threshold_irrelevant (c : Option Nat) (fc : Nat)
    (st : Option ℚ) (fps : Nat) (pf : Option (Nat × Nat))
    (fw fh crf m₁ m₂ nid : Nat) (e : Env) :
    recv ⟨c, fc, st, fps, pf, fw, fh, crf, m₁, nid⟩ e =
      ⟨(recv ⟨c, fc, st, fps, pf, fw, fh, crf, m₂, nid⟩ e).frame,
       { (recv ⟨c, fc, st, fps, pf, fw, fh, crf, m₂, nid⟩ e).state with
           maxConsecutiveReadFailures := m₁ },
       (recv ⟨c, fc, st, fps, pf, fw, fh, crf, m₂, nid⟩ e).events,
       (recv ⟨c, fc, st, fps, pf, fw, fh, crf, m₂, nid⟩ e).sleeps⟩ := by
  rcases c with _ | sid
  · cases ho : e.openOk
    · rw [recv_closed_openFail ⟨none, fc, st, fps, pf, fw, fh, crf, m₁, nid⟩
            e rfl ho,
          recv_closed_openFail ⟨none, fc, st, fps, pf, fw, fh, crf, m₂, nid⟩
            e rfl ho]
      rfl
    · rw [recv_closed_openOk ⟨none, fc, st, fps, pf, fw, fh, crf, m₁, nid⟩
            e rfl ho,
          recv_closed_openOk ⟨none, fc, st, fps, pf, fw, fh, crf, m₂, nid⟩
            e rfl ho]
      rcases hr : e.readFrame with _ | img
      · rw [recv_open_readFail
              (openedState ⟨none, fc, st, fps, pf, fw, fh, crf, m₁, nid⟩
                e.now) e nid rfl hr,
            recv_open_readFail
              (openedState ⟨none, fc, st, fps, pf, fw, fh, crf, m₂, nid⟩
                e.now) e nid rfl hr]
        rfl
      · cases hcv : e.convertOk
        · rw [recv_open_convertFail
                (openedState ⟨none, fc, st, fps, pf, fw, fh, crf, m₁, nid⟩
                  e.now) e nid img rfl hr hcv,
              recv_open_convertFail
                (openedState ⟨none, fc, st, fps, pf, fw, fh, crf, m₂, nid⟩
                  e.now) e nid img rfl hr hcv]
          rfl
        · rw [recv_open_readOk
                (openedState ⟨none, fc, st, fps, pf, fw, fh, crf, m₁, nid⟩
                  e.now) e nid img rfl hr hcv,
              recv_open_readOk
                (openedState ⟨none, fc, st, fps, pf, fw, fh, crf, m₂, nid⟩
                  e.now) e nid img rfl hr hcv]
          by_cases hd : img.height = fh ∧ img.width = fw
          · simp [openedState, hd]
          · simp [openedState, hd]
  · rcases hr : e.readFrame with _ | img
    · rw [recv_open_readFail ⟨some sid, fc, st, fps, pf, fw, fh, crf, m₁, nid⟩
            e sid rfl hr,
          recv_open_readFail ⟨some sid, fc, st, fps, pf, fw, fh, crf, m₂, nid⟩
            e sid rfl hr]
      rfl
    · cases hcv : e.convertOk
      · rw [recv_open_convertFail
              ⟨some sid, fc, st, fps, pf, fw, fh, crf, m₁, nid⟩
              e sid img rfl hr hcv,
            recv_open_convertFail
              ⟨some sid, fc, st, fps, pf, fw, fh, crf, m₂, nid⟩
              e sid img rfl hr hcv]
        rfl
      · rw [recv_open_readOk
              ⟨some sid, fc, st, fps, pf, fw, fh, crf, m₁, nid⟩
              e sid img rfl hr hcv,
            recv_open_readOk
              ⟨some sid, fc, st, fps, pf, fw, fh, crf, m₂, nid⟩
              e sid img rfl hr hcv]
        by_cases hd : img.height = fh ∧ img.width = fw
        · simp [hd]
        · simp [hd]

/-- Claim C7 (confirmed): the failure-escalation threshold influences
nothing but logging: on every input, two track states differing only in
the threshold produce the same frame, the same capture-device calls, the
same sleep pacing, and the same successor state apart from the threshold
field itself; and every call that begins with no open session attempts
exactly one open regardless of the failure count — the machine never
permanently gives up. -/
theorem C7_threshold_observability_only (s : TrackState) (e : Env)
    (m₁ m₂ : Nat) :
    (recv { s with maxConsecutiveReadFailures := m₁ } e).frame =
        (recv { s with maxConsecutiveReadFailures := m₂ } e).frame ∧
      (recv { s with maxConsecutiveReadFailures := m₁ } e).events =
        (recv { s with maxConsecutiveReadFailures := m₂ } e).events ∧
      (recv { s with maxConsecutiveReadFailures := m₁ } e).sleeps =
        (recv { s with maxConsecutiveReadFailures := m₂ } e).sleeps ∧
      (recv { s with maxConsecutiveReadFailures := m₁ } e).state =
        { (recv { s with maxConsecutiveReadFailures := m₂ } e).state with
            maxConsecutiveReadFailures := m₁ } ∧
      (recv s e).events.countP (fun ev => isOpenEv ev) =
        (if s.cap = none then 1 else 0) := by
  obtain ⟨c, fc, st, fps, pf, fw, fh, crf, mx, nid⟩ := s
  rw [recv_threshold_irrelevant c fc st fps pf fw fh crf m₁ m₂ nid e]
  exact ⟨rfl, rfl, rfl, rfl, openAttempts_recv _ e⟩

/-- Claim C8 (confirmed): the placeholder cache is invalidated exactly when
a real frame's dimensions differ from the cached dimensions — the cached
dimensions are updated to the frame's, the cache entry is dropped (and kept
untouched when the dimensions match), and the next placeholder that is
subsequently synthesized has the new resolution. -/
theorem C8_placeholder_resolution (s : TrackState) (e : Env) (sid : Nat)
    (img : Img) (hcap : s.cap = some sid) (hr : e.readFrame = some img)
    (hcv : e.convertOk = true)
    (hinv : s.placeholderFrame = none ∨
      s.placeholderFrame = some (s.frameWidth, s.frameHeight)) :
    (recv s e).state.frameWidth = img.width ∧
      (recv s e).state.frameHeight = img.height ∧
      ((img.height = s.frameHeight ∧ img.width = s.frameWidth) →
        (recv s e).state.placeholderFrame = s.placeholderFrame) ∧
      (¬(img.height = s.frameHeight ∧ img.width = s.frameWidth) →
        (recv s e).state.placeholderFrame = none) ∧
      ∀ now, (createBlackFrame (recv s e).state now).1.width = img.width ∧
        (createBlackFrame (recv s e).state now).1.height = img.height := by
  rw [recv_open_readOk s e sid img hcap hr hcv]
  by_cases hd : img.height = s.frameHeight ∧ img.width = s.frameWidth
  · rw [if_pos hd]
    refine ⟨hd.2.symm, hd.1.symm, fun _ => rfl, fun hx => absurd hd hx,
      fun now => ?_⟩
    rw [createBlackFrame_fst]
    rcases hinv with hpf | hpf <;> simp [hpf, hd.1, hd.2]
  · rw [if_neg hd]
    refine ⟨rfl, rfl, fun hx => absurd hx hd, fun _ => rfl, fun now => ?_⟩
    rw [createBlackFrame_fst]
    simp

/-- Witness for C8: a cached 640 by 480 placeholder, then a real 1280 by
720 frame; the next placeholder is 1280 by 720. -/
theorem C8_placeholder_resolution_witness :
    ({ initState with
         cap := some 0
         nextSessionId := 1
         placeholderFrame := some (640, 480) } : TrackState).cap = some 0 ∧
      ((⟨true, some ⟨1280, 720⟩, true, 0⟩ : Env)).readFrame =
        some ⟨1280, 720⟩ ∧
      ((⟨true, some ⟨1280, 720⟩, true, 0⟩ : Env)).convertOk = true ∧
      (({ initState with
            cap := some 0
            nextSessionId := 1
            placeholderFrame := some (640, 480) } :
          TrackState).placeholderFrame = none ∨
        ({ initState with
             cap := some 0
             nextSessionId := 1
             placeholderFrame := some (640, 480) } :
           TrackState).placeholderFrame =
          some (({ initState with
                cap := some 0
                nextSessionId := 1
                placeholderFrame := some (640, 480) } :
              TrackState).frameWidth,
            ({ initState with
                 cap := some 0
                 nextSessionId := 1
                 placeholderFrame := some (640, 480) } :
               TrackState).frameHeight)) ∧
      ((recv { initState with
            cap := some 0
            nextSessionId := 1
            placeholderFrame := some (640, 480) }
          ⟨true, some ⟨1280, 720⟩, true, 0⟩).state.frameWidth = 1280 ∧
        (recv { initState with
            cap := some 0
            nextSessionId := 1
            placeholderFrame := some (640, 480) }
          ⟨true, some ⟨1280, 720⟩, true, 0⟩).state.frameHeight = 720 ∧
        (((⟨1280, 720⟩ : Img).height = 480 ∧
            (⟨1280, 720⟩ : Img).width = 640) →
          (recv { initState with
              cap := some 0
              nextSessionId := 1
              placeholderFrame := some (640, 480) }
            ⟨true, some ⟨1280, 720⟩, true, 0⟩).state.placeholderFrame =
            some (640, 480)) ∧
        (¬((⟨1280, 720⟩ : Img).height = 480 ∧
            (⟨1280, 720⟩ : Img).width = 640) →
          (recv { initState with
              cap := some 0
              nextSessionId := 1
              placeholderFrame := some (640, 480) }
            ⟨true, some ⟨1280, 720⟩, true, 0⟩).state.placeholderFrame =
            none) ∧
        ∀ now,
          (createBlackFrame
              (recv { initState with
                  cap := some 0
                  nextSessionId := 1
                  placeholderFrame := some (640, 480) }
                ⟨true, some ⟨1280, 720⟩, true, 0⟩).state now).1.width =
              1280 ∧
            (createBlackFrame
                (recv { initState with
                    cap := some 0
                    nextSessionId := 1
                    placeholderFrame := some (640, 480) }
                  ⟨true, some ⟨1280, 720⟩, true, 0⟩).state now).1.height =
              720) :=
  ⟨rfl, rfl, rfl, Or.inr rfl,
    C8_placeholder_resolution
      { initState with
          cap := some 0
          nextSessionId := 1
          placeholderFrame := some (640, 480) }
      ⟨true, some ⟨1280, 720⟩, true, 0⟩ 0 ⟨1280, 720⟩ rfl rfl rfl
      (Or.inr rfl)⟩

/-- Claim C9 (confirmed): once `stop` is the only call still made on the
track, no open or read call ever reaches the capture device again, the
open session (if any) is released exactly once, and `stop` is idempotent:
a second `stop` finds no session and changes nothing. -/
theorem C9_stop_releases_once (s : TrackState) (calls : List Call)
    (h : ∀ c ∈ calls, c = Call.stopC) :
    (runEvents s calls).countP (fun ev => isOpenEv ev || isReadEv ev) = 0 ∧
      (runEvents s calls).countP (fun ev => isReleaseEv ev) =
        (if s.cap = none ∨ calls = [] then 0 else 1) ∧
      stop (stop s).1 = ((stop s).1, []) :=
  ⟨(runEvents_stops s calls h).1, (runEvents_stops s calls h).2,
    stop_idem s⟩

/-- Witness for C9: an open session, then two `stop` calls. -/
theorem C9_stop_releases_once_witness :
    (∀ c ∈ [Call.stopC, Call.stopC], c = Call.stopC) ∧
      ((runEvents { initState with
             cap := some 0
             nextSessionId := 1 }
          [Call.stopC, Call.stopC]).countP
          (fun ev => isOpenEv ev || isReadEv ev) = 0 ∧
        (runEvents { initState with
             cap := some 0
             nextSessionId := 1 }
          [Call.stopC, Call.stopC]).countP
          (fun ev => isReleaseEv ev) =
          (if ({ initState with
                 cap := some 0
                 nextSessionId := 1 } : TrackState).cap = none ∨
              ([Call.stopC, Call.stopC] : List Call) = [] then 0 else 1) ∧
        stop (stop { initState with
            cap := some 0
            nextSessionId := 1 }).1 =
          ((stop { initState with
              cap := some 0
              nextSessionId := 1 }).1, [])) :=
  ⟨by simp, C9_stop_releases_once _ _ (by simp)⟩

/-- Witness for C3 on a reconnect scenario: open and read, read failure,
reopen and read, stop. -/
theorem C3_epoch_never_reset_witness :
    ({ initState with startTime := some (2 : ℚ) } : TrackState).startTime =
        some (2 : ℚ) ∧
      ((runState { initState with startTime := some (2 : ℚ) }
            [Call.recvC ⟨true, some ⟨640, 480⟩, true, 3⟩,
             Call.recvC ⟨true, none, true, 4⟩,
             Call.recvC ⟨true, some ⟨640, 480⟩, true, 5⟩,
             Call.stopC]).startTime = some (2 : ℚ) ∧
        ∀ now, (openedState { initState with startTime := some (2 : ℚ) }
            now).startTime = some (2 : ℚ)) :=
  ⟨rfl, C3_epoch_never_reset _ _ 2 rfl⟩

end LuminaEyes
